import Mathlib

/-!
Verification of the two application cores of this repository:
the bounded tool-calling chat loop of `1_foundations/app.py`
and the research pipeline orchestration of
`2_openai/deep_research/research_manager.py`.

The Python code is shallowly embedded: the remote model client
(`self.openai.chat.completions.create`, `Runner.run`) is a parameter,
dictionaries become structures, and a Python exception becomes the
`Except.error` branch.
-/

/-- A Python exception raised inside the chat turn.  `typeError` is the
`TypeError` from calling a function with keyword arguments that do not match
its signature (or from invoking a typing alias, which always raises it);
`otherError` stands for the exception that invoking one of the module's
classes through the tool path always ends in — a constructor `TypeError`,
an `OpenAIError`, or the `json.dumps` `TypeError` on the non-serializable
instance; which of those occurs depends on the environment and no theorem
depends on it, so the embedding collapses them into one value recording the
class name. -/
inductive PyErr where
  | typeError (fn : String)
  | otherError (fn : String)
deriving DecidableEq

/-- A minimal model of the JSON-serializable Python values a call through
the tool path can return: the two tools return string-to-string dicts,
`push` returns `None`, and `load_dotenv` returns a bool. -/
inductive PyVal where
  | noneVal
  | bool (b : Bool)
  | dict (fields : List (String × String))
deriving DecidableEq

/-- Model of `json.dumps` restricted to the values of `PyVal`. -/
def dumps : PyVal → String
  | PyVal.noneVal => "null"
  | PyVal.bool b => if b then "true" else "false"
  | PyVal.dict [] => "\x7b\x7d"
  | PyVal.dict fields =>
      "\x7b" ++ String.intercalate ", "
        (fields.map (fun p => "\x22" ++ p.1 ++ "\x22: \x22" ++ p.2 ++ "\x22")) ++ "\x7d"

/-- Python keyword-argument acceptance for a function whose signature has the
given required and optional (defaulted) parameter names: every required name
must be supplied and no supplied name may fall outside the signature.
`tool(**arguments)` raises `TypeError` exactly when this is false. -/
def kwargsAccepted (required optional : List String) (args : List (String × String)) : Bool :=
  required.all (fun k => args.any (fun p => p.1 = k)) &&
  args.all (fun p => (required ++ optional).contains p.1)

/-- Embedding of `record_user_details(email, name=..., notes=...)`: with
acceptable keyword arguments it returns `{"recorded": "ok"}` (the `push` call
inside it never raises); otherwise Python raises `TypeError`. -/
def record_user_details (args : List (String × String)) : Except PyErr PyVal :=
  if kwargsAccepted ["email"] ["name", "notes"] args then
    Except.ok (PyVal.dict [("recorded", "ok")])
  else
    Except.error (PyErr.typeError "record_user_details")

/-- Embedding of `record_unknown_question(question)`. -/
def record_unknown_question (args : List (String × String)) : Except PyErr PyVal :=
  if kwargsAccepted ["question"] [] args then
    Except.ok (PyVal.dict [("recorded", "ok")])
  else
    Except.error (PyErr.typeError "record_unknown_question")

/-- Embedding of `push(text)`, which returns `None` (its HTTP side effect is
out of scope and it swallows its own request errors). -/
def push (args : List (String × String)) : Except PyErr PyVal :=
  if kwargsAccepted ["text"] [] args then
    Except.ok PyVal.noneVal
  else
    Except.error (PyErr.typeError "push")

/-- Deployment assumption of the embedding, parallel to `mkMe` applied to
empty documents: no `.env` file is present, so `load_dotenv` returns
`False`.  The actual value is environment-dependent and no claim theorem
depends on it. -/
def DOTENV_FOUND : Bool := false

/-- Embedding of `dotenv.load_dotenv`, a callable module global: keyword
arguments within its signature (`dotenv_path`, `stream`, `verbose`,
`override`, `interpolate`, `encoding`, all optional) return a bool, which
the tool path serializes and feeds back; anything else raises `TypeError`. -/
def load_dotenv (args : List (String × String)) : Except PyErr PyVal :=
  if kwargsAccepted []
      ["dotenv_path", "stream", "verbose", "override", "interpolate", "encoding"] args then
    Except.ok (PyVal.bool DOTENV_FOUND)
  else
    Except.error (PyErr.typeError "load_dotenv")

/-- Embedding of the callable typing aliases the module imports (`Any`,
`Dict`, `List`, `TypedDict`, `Union`, `Optional`): `callable` is true of
each, and every invocation raises `TypeError` (cannot be instantiated /
missing required argument), whatever the arguments. -/
def typingAlias (nm : String) : List (String × String) → Except PyErr PyVal :=
  fun _ => Except.error (PyErr.typeError nm)

/-- Embedding of the classes the module binds (`OpenAI`, `PdfReader`, `Me`):
invoking one through the tool path always ends in an uncaught exception
before its tool-result is appended — a `TypeError` for keyword arguments
outside the constructor signature or the missing `PdfReader` stream, an
`OpenAIError` when no API key is configured, or, when construction
succeeds, the `json.dumps` `TypeError` on the non-serializable instance.
The embedding folds that last, post-call failure into the call itself,
which is observationally equivalent for `handle_tool_call`. -/
def classCallable (nm : String) : List (String × String) → Except PyErr PyVal :=
  fun _ => Except.error (PyErr.otherError nm)

/-- Embedding of `globals().get(tool_name)` followed by the `callable(tool)`
check in `Me.handle_tool_call`, over the module namespace of `app.py`: the
callables are the three module functions, `load_dotenv`, the three classes,
and the six typing aliases.  Every other module binding — the modules
`json`, `os`, `requests`, `gr`; the constants `PUSHOVER_ENDPOINT`,
`RECORD_USER_DETAILS_JSON`, `RECORD_UNKNOWN_QUESTION_JSON`, `OPENAI_TOOLS`;
the `annotations` future feature; the `me` instance bound under
`__main__`; and the module dunders — fails the `callable` check, and an
unbound name yields `None`: both take the empty-dict branch, so `none`
covers exactly those names. -/
def lookupTool (name : String) :
    Option (List (String × String) → Except PyErr PyVal) :=
  if name = "record_user_details" then some record_user_details
  else if name = "record_unknown_question" then some record_unknown_question
  else if name = "push" then some push
  else if name = "load_dotenv" then some load_dotenv
  else if name = "OpenAI" then some (classCallable "OpenAI")
  else if name = "PdfReader" then some (classCallable "PdfReader")
  else if name = "Me" then some (classCallable "Me")
  else if name = "Any" then some (typingAlias "Any")
  else if name = "Dict" then some (typingAlias "Dict")
  else if name = "List" then some (typingAlias "List")
  else if name = "TypedDict" then some (typingAlias "TypedDict")
  else if name = "Union" then some (typingAlias "Union")
  else if name = "Optional" then some (typingAlias "Optional")
  else none

/-- The `function` payload of an OpenAI tool call: a tool name and the
argument object (already parsed from its JSON text, as `json.loads`
produces it in `handle_tool_call`). -/
structure ToolFunction where
  name : String
  arguments : List (String × String)
deriving DecidableEq

/-- One requested tool invocation from a model response
(`tool_call.id`, `tool_call.function`). -/
structure ToolCall where
  id : String
  function : ToolFunction
deriving DecidableEq

/-- One conversation message dict as built by `Me.chat`: a role string, text
content, the `tool_calls` list carried by assistant messages (empty
otherwise), and the `tool_call_id` back-reference carried by tool-result
messages (`none` otherwise). -/
structure Msg where
  role : String
  content : String
  tool_calls : List ToolCall
  tool_call_id : Option String
deriving DecidableEq

/-- A plain role/content message with no tool fields. -/
def mkMsg (role content : String) : Msg :=
  { role := role, content := content, tool_calls := [], tool_call_id := none }

/-- The `message` part of a chat-completion choice: optional text content and
the list of requested tool calls (the API sends `null` for no tool calls;
that case is modelled by the empty list). -/
structure ChoiceMessage where
  content : Option String
  tool_calls : List ToolCall
deriving DecidableEq

/-- One chat-completion choice: `finish_reason` and `message`.  `Me.chat`
branches on whether `finish_reason == "tool_calls"`. -/
structure Choice where
  finish_reason : String
  message : ChoiceMessage
deriving DecidableEq

/-- The model invocation adapter: `self.openai.chat.completions.create`
reduced to its observable behaviour for this loop, a function from the
current message list to the first response choice. -/
abbrev Adapter := List Msg → Choice

/-- Embedding of `Me.handle_tool_call`: for each requested invocation, look
the tool name up among the module globals, call it (an unknown or
non-callable name contributes the empty dict `\x7b\x7d` instead), and emit a
tool-result message carrying the serialized response and the invocation id,
in request order.  A `TypeError` raised by a tool call propagates and
discards all results. -/
def handle_tool_call : List ToolCall → Except PyErr (List Msg)
  | [] => Except.ok []
  | tc :: rest =>
    match (match lookupTool tc.function.name with
           | some tool => tool tc.function.arguments
           | none => Except.ok (PyVal.dict [])) with
    | Except.error e => Except.error e
    | Except.ok resp =>
      match handle_tool_call rest with
      | Except.error e => Except.error e
      | Except.ok results =>
        Except.ok ({ role := "tool", content := dumps resp, tool_calls := [],
                     tool_call_id := some tc.id } :: results)

/-- The persona data of `Me.__init__`: the fixed name and the two loaded
documents (empty strings when the files are unavailable). -/
structure Me where
  name : String
  summary : String
  linkedin : String
deriving DecidableEq

/-- The `Me` instance as `__init__` builds it: the name is fixed, the two
documents come from the filesystem. -/
def mkMe (summary linkedin : String) : Me :=
  { name := "Ed Donner", summary := summary, linkedin := linkedin }

/-- Embedding of `Me.system_prompt`. -/
def system_prompt (me : Me) : String :=
  let intro :=
    "You are acting as " ++ me.name ++ ". Answer questions about " ++ me.name ++
    "\x27s career, background, skills and experience. " ++
    "Represent the persona faithfully and professionally. If you do not know an answer, call record_unknown_question. " ++
    "Encourage the user to share their email and record via record_user_details."
  let summary_block :=
    if me.summary = "" then "" else "\n\n## Summary\n" ++ me.summary
  let linkedin_block :=
    if me.linkedin = "" then "" else "\n\n## LinkedIn Profile\n" ++ me.linkedin
  let closing := "\n\nStay strictly in character as " ++ me.name ++ "."
  intro ++ summary_block ++ linkedin_block ++ closing

/-- The assistant message `Me.chat` appends after a tool-call response:
`content or ""` plus the dumped tool calls. -/
def assistantMsg (m : ChoiceMessage) : Msg :=
  { role := "assistant", content := m.content.getD "", tool_calls := m.tool_calls,
    tool_call_id := none }

/-- The fixed apology string returned when the iteration cap is exhausted. -/
def apology : String :=
  "I\x27m sorry, I\x27m unable to complete that request right now. Please try again."

/-- The iteration cap of the loop, the literal in `for _ in range(12)`. -/
def MAX_TOOL_ROUNDS : Nat := 12

instance {ε α : Type} [DecidableEq ε] [DecidableEq α] : DecidableEq (Except ε α) :=
  fun a b =>
    match a, b with
    | Except.error e, Except.error f =>
      if h : e = f then Decidable.isTrue (congrArg Except.error h)
      else Decidable.isFalse (fun hh => h (Except.error.inj hh))
    | Except.ok x, Except.ok y =>
      if h : x = y then Decidable.isTrue (congrArg Except.ok h)
      else Decidable.isFalse (fun hh => h (Except.ok.inj hh))
    | Except.error _, Except.ok _ => Decidable.isFalse (fun hh => Except.noConfusion hh)
    | Except.ok _, Except.error _ => Decidable.isFalse (fun hh => Except.noConfusion hh)

/-- The observable outcome of one `Me.chat` call: the returned string or the
propagated exception, the number of model calls issued, and the message list
at the end of the turn. -/
structure LoopResult where
  outcome : Except PyErr String
  calls : Nat
  messages : List Msg
deriving DecidableEq

/-- Embedding of the `for _ in range(12)` body of `Me.chat`, with the
remaining iteration budget explicit.  Exhausted budget returns the apology;
otherwise one model call is issued and either a final answer is returned, a
tool round is appended and the loop continues, or a tool `TypeError`
propagates. -/
def chatLoop (adapter : Adapter) : Nat → List Msg → LoopResult
  | 0, msgs => { outcome := Except.ok apology, calls := 0, messages := msgs }
  | Nat.succ n, msgs =>
    let choice := adapter msgs
    if choice.finish_reason = "tool_calls" then
      match handle_tool_call choice.message.tool_calls with
      | Except.error e => { outcome := Except.error e, calls := 1, messages := msgs }
      | Except.ok results =>
        let r := chatLoop adapter n ((msgs ++ [assistantMsg choice.message]) ++ results)
        { outcome := r.outcome, calls := r.calls + 1, messages := r.messages }
    else
      { outcome := Except.ok (choice.message.content.getD ""), calls := 1,
        messages := msgs }

/-- The message list `Me.chat` builds before entering the loop: system
prompt, caller history, new user message. -/
def initial_messages (me : Me) (message : String) (history : List Msg) : List Msg :=
  (mkMsg "system" (system_prompt me) :: history) ++ [mkMsg "user" message]

/-- Embedding of `Me.chat`. -/
def chat (me : Me) (adapter : Adapter) (message : String) (history : List Msg) :
    LoopResult :=
  chatLoop adapter MAX_TOOL_ROUNDS (initial_messages me message history)

/-- The two Python list variables visible inside `Me.chat`: the
caller-supplied `history` list and the local `messages` list.  The embedding
of a statement records which of the two lists it assigns: `Me.chat` builds
`messages` by `+` (a fresh list) and then only ever calls
`messages.append` / `messages.extend`. -/
structure ChatState where
  history : List Msg
  messages : List Msg
deriving DecidableEq

/-- Statement-level embedding of the loop of `Me.chat` over the two named
lists: each iteration reads `messages` and assigns only `messages`. -/
def chatLoopS (adapter : Adapter) : Nat → ChatState → ChatState × Except PyErr String
  | 0, s => (s, Except.ok apology)
  | Nat.succ n, s =>
    let choice := adapter s.messages
    if choice.finish_reason = "tool_calls" then
      match handle_tool_call choice.message.tool_calls with
      | Except.error e => (s, Except.error e)
      | Except.ok results =>
        chatLoopS adapter n
          { history := s.history,
            messages := (s.messages ++ [assistantMsg choice.message]) ++ results }
    else
      (s, Except.ok (choice.message.content.getD ""))

/-- Statement-level embedding of `Me.chat` over the two named lists: the
initial assignment `messages = [system] + history + [user]` reads `history`
and assigns `messages`; the loop then runs on the state. -/
def chatS (me : Me) (adapter : Adapter) (message : String) (s : ChatState) :
    ChatState × Except PyErr String :=
  chatLoopS adapter MAX_TOOL_ROUNDS
    { history := s.history,
      messages := (mkMsg "system" (system_prompt me) :: s.history) ++
                  [mkMsg "user" message] }

/-! ## Research pipeline (`2_openai/deep_research`) -/

/-- A Python exception escaping an `await Runner.run(...)` call in the
research pipeline. -/
inductive Exc where
  | failure (msg : String)
deriving DecidableEq

/-- The configured number of searches, `HOW_MANY_SEARCHES` in
`planner_agent.py`. -/
def HOW_MANY_SEARCHES : Nat := 5

/-- The planner instructions string of `planner_agent.py`, which requests
`HOW_MANY_SEARCHES` terms from the model. -/
def PLANNER_INSTRUCTIONS : String :=
  "You are a helpful research assistant. Given a query, come up with a set of web searches " ++
  "to perform to best answer the query. Output " ++ toString HOW_MANY_SEARCHES ++
  " terms to query for."

/-- One planned search of `planner_agent.py` (`WebSearchItem`). -/
structure WebSearchItem where
  reason : String
  query : String
deriving DecidableEq

/-- The structured planner output of `planner_agent.py` (`WebSearchPlan`):
a list of searches of unconstrained length. -/
structure WebSearchPlan where
  searches : List WebSearchItem
deriving DecidableEq

/-- The structured writer output of `writer_agent.py` (`ReportData`). -/
structure ReportData where
  short_summary : String
  markdown_report : String
  follow_up_questions : List String
deriving DecidableEq

/-- Python `repr` of a list of strings, as interpolation of
`search_results` into the writer input produces it. -/
def pyListRepr (xs : List String) : String :=
  "[" ++ String.intercalate ", " (xs.map (fun s => "\x27" ++ s ++ "\x27")) ++ "]"

/-- The remote agent runs of `research_manager.py`, each reduced to its
observable behaviour: the final output produced for a given input, or the
exception escaping the awaited call.  `completion` is the order in which
`asyncio.as_completed` yields the search tasks: some permutation of the
launched tasks, one entry per task. -/
structure ResearchDeps where
  gen_trace_id : String
  plannerRun : String → Except Exc WebSearchPlan
  searchRun : String → Except Exc String
  as_completed : List WebSearchItem → List WebSearchItem
  writerRun : String → Except Exc ReportData
  emailRun : String → Except Exc String

/-- Embedding of `ResearchManager.plan_searches`: one planner run on
`"Query: ..."`, whose structured output (or failure) is returned as is. -/
def plan_searches (plannerRun : String → Except Exc WebSearchPlan) (query : String) :
    Except Exc WebSearchPlan :=
  plannerRun ("Query: " ++ query)

/-- Embedding of `ResearchManager.search`: one search-agent run on the
item's input text; a successful final output is returned as a string and
any exception is swallowed into `none`. -/
def search (searchRun : String → Except Exc String) (item : WebSearchItem) :
    Option String :=
  match searchRun ("Search term: " ++ item.query ++ "\nReason for searching: " ++
                   item.reason) with
  | Except.ok out => some out
  | Except.error _ => none

/-- Embedding of `ResearchManager.perform_searches`: one task is launched
per plan item, `as_completed` yields those tasks back in completion order
(some permutation of the launch order), and each completing task's result is
appended when it is not `None`. -/
def perform_searches (searchRun : String → Except Exc String)
    (search_plan : WebSearchPlan)
    (as_completed : List WebSearchItem → List WebSearchItem) : List String :=
  let tasks := search_plan.searches
  (as_completed tasks).foldl
    (fun results item =>
      match search searchRun item with
      | some result => results ++ [result]
      | none => results)
    []

/-- Embedding of `ResearchManager.write_report`: one writer run on the query
plus the interpolated search results. -/
def write_report (writerRun : String → Except Exc ReportData) (query : String)
    (search_results : List String) : Except Exc ReportData :=
  writerRun ("Original query: " ++ query ++ "\nSummarized search results: " ++
             pyListRepr search_results)

/-- Embedding of `ResearchManager.send_email`: one email-agent run on the
markdown report; the run result is discarded. -/
def send_email (emailRun : String → Except Exc String) (report : ReportData) :
    Except Exc Unit :=
  match emailRun report.markdown_report with
  | Except.ok _ => Except.ok ()
  | Except.error e => Except.error e

/-- The first string `ResearchManager.run` yields, carrying the trace id. -/
def trace_event (trace_id : String) : String :=
  "View trace: https://platform.openai.com/traces/trace?trace_id=" ++ trace_id

/-- Embedding of `ResearchManager.run`: the four stages in sequence, and the
list of strings the generator yields over a completed run, in yield order.
A stage failure raises out of the generator instead (the strings already
yielded before the failure are not modelled). -/
def ResearchManager.run (d : ResearchDeps) (query : String) :
    Except Exc (List String) :=
  match plan_searches d.plannerRun query with
  | Except.error e => Except.error e
  | Except.ok search_plan =>
    let search_results :=
      perform_searches d.searchRun search_plan d.as_completed
    match write_report d.writerRun query search_results with
    | Except.error e => Except.error e
    | Except.ok report =>
      match send_email d.emailRun report with
      | Except.error e => Except.error e
      | Except.ok _ =>
        Except.ok [trace_event d.gen_trace_id,
                   "Searches planned, starting to search...",
                   "Searches complete, writing report...",
                   "Report written, sending email...",
                   "Email sent, research complete",
                   report.markdown_report]

/-! ## Concrete instances used by witnesses and counterexamples -/

/-- A persona whose document files were unavailable. -/
def me0 : Me := mkMe "" ""

/-- A stubbed adapter that, whatever the conversation, requests the same
single tool invocation. -/
def constantToolAdapter (cid nm : String) (args : List (String × String)) : Adapter :=
  fun _ =>
    { finish_reason := "tool_calls",
      message := { content := none,
                   tool_calls := [{ id := cid,
                                    function := { name := nm,
                                                  arguments := args } }] } }

/-- An adapter that always requests one invocation of a tool name that is not
a module-level callable. -/
def unknownToolAdapter : Adapter := constantToolAdapter "call_0" "no_such_tool" []

/-- An adapter that always requests `record_user_details` with an argument
object violating its signature (no `email`, an undeclared key). -/
def badArgsAdapter : Adapter :=
  constantToolAdapter "call_1" "record_user_details" [("nickname", "Bo")]

/-- An adapter whose every response is the final textual answer `"X"` with no
tool-call request. -/
def finalAnswerAdapter : Adapter := fun _ =>
  { finish_reason := "stop", message := { content := some "X", tool_calls := [] } }

/-! ## Helper lemmas about the chat loop -/

theorem chatLoop_calls_le (a : Adapter) (n : Nat) :
    ∀ msgs : List Msg, (chatLoop a n msgs).calls ≤ n := by
  induction n with
  | zero => intro msgs; exact Nat.le_refl 0
  | succ n ih =>
    intro msgs
    simp only [chatLoop]
    split
    · split
      · exact Nat.succ_le_succ (Nat.zero_le n)
      · exact Nat.succ_le_succ (ih _)
    · exact Nat.succ_le_succ (Nat.zero_le n)

theorem chatLoop_capped (a : Adapter)
    (hall : ∀ msgs : List Msg, (a msgs).finish_reason = "tool_calls" ∧
      ∃ rs, handle_tool_call (a msgs).message.tool_calls = Except.ok rs) :
    ∀ (n : Nat) (msgs : List Msg),
      (chatLoop a n msgs).outcome = Except.ok apology ∧
      (chatLoop a n msgs).calls = n := by
  intro n
  induction n with
  | zero => intro msgs; exact ⟨rfl, rfl⟩
  | succ n ih =>
    intro msgs
    obtain ⟨hfr, rs, hok⟩ := hall msgs
    simp only [chatLoop, hfr, if_pos, hok]
    obtain ⟨ho, hc⟩ := ih ((msgs ++ [assistantMsg (a msgs).message]) ++ rs)
    exact ⟨ho, by rw [hc]⟩

theorem chatLoop_succ_of_final (a : Adapter) (n : Nat) (msgs : List Msg)
    (hfr : (a msgs).finish_reason ≠ "tool_calls") :
    chatLoop a (Nat.succ n) msgs =
      { outcome := Except.ok ((a msgs).message.content.getD ""), calls := 1,
        messages := msgs } := by
  simp only [chatLoop]
  rw [if_neg hfr]

theorem chatLoop_succ_of_error (a : Adapter) (n : Nat) (msgs : List Msg) (e : PyErr)
    (hfr : (a msgs).finish_reason = "tool_calls")
    (hh : handle_tool_call (a msgs).message.tool_calls = Except.error e) :
    chatLoop a (Nat.succ n) msgs =
      { outcome := Except.error e, calls := 1, messages := msgs } := by
  simp only [chatLoop]
  rw [if_pos hfr, hh]

theorem handle_tool_call_ok (tcs : List ToolCall) (rs : List Msg)
    (h : handle_tool_call tcs = Except.ok rs) :
    rs.map Msg.tool_call_id = tcs.map (fun tc => some tc.id) ∧
    ∀ r ∈ rs, r.role = "tool" := by
  induction tcs generalizing rs with
  | nil =>
    cases h
    exact ⟨rfl, fun r hr => absurd hr (List.not_mem_nil r)⟩
  | cons tc rest ih =>
    simp only [handle_tool_call] at h
    cases hcall : (match lookupTool tc.function.name with
                   | some tool => tool tc.function.arguments
                   | none => Except.ok (PyVal.dict [])) with
    | error e => rw [hcall] at h; cases h
    | ok resp =>
      rw [hcall] at h
      cases hr : handle_tool_call rest with
      | error e => rw [hr] at h; cases h
      | ok rs2 =>
        rw [hr] at h
        cases h
        obtain ⟨h1, h2⟩ := ih rs2 hr
        refine ⟨by simpa using h1, ?_⟩
        intro r hmem
        rcases List.mem_cons.mp hmem with heq | hmem2
        · rw [heq]
        · exact h2 r hmem2

/-- The shape of everything the loop appends beyond its starting messages: a
sequence of blocks, each an assistant message followed by exactly one
tool-result per requested invocation, carrying the invocation ids in request
order. -/
inductive ToolBlocks : List Msg → Prop where
  | nil : ToolBlocks []
  | block (am : Msg) (rs rest : List Msg)
      (hrole : am.role = "assistant")
      (hids : rs.map Msg.tool_call_id = am.tool_calls.map (fun tc => some tc.id))
      (hroles : ∀ r ∈ rs, r.role = "tool")
      (hrest : ToolBlocks rest) :
      ToolBlocks (am :: (rs ++ rest))

theorem chatLoop_blocks (a : Adapter) (n : Nat) :
    ∀ msgs : List Msg,
      ∃ ext, (chatLoop a n msgs).messages = msgs ++ ext ∧ ToolBlocks ext := by
  induction n with
  | zero => intro msgs; exact ⟨[], by simp [chatLoop], ToolBlocks.nil⟩
  | succ n ih =>
    intro msgs
    by_cases hfr : (a msgs).finish_reason = "tool_calls"
    · cases hh : handle_tool_call (a msgs).message.tool_calls with
      | error e =>
        refine ⟨[], ?_, ToolBlocks.nil⟩
        simp [chatLoop, hfr, hh]
      | ok results =>
        obtain ⟨ext, hmsg, hblocks⟩ :=
          ih ((msgs ++ [assistantMsg (a msgs).message]) ++ results)
        refine ⟨assistantMsg (a msgs).message :: (results ++ ext), ?_, ?_⟩
        · simp only [chatLoop, hfr, if_pos, hh, hmsg]
          simp
        · obtain ⟨hids, hroles⟩ := handle_tool_call_ok _ _ hh
          exact ToolBlocks.block _ _ _ rfl hids hroles hblocks
    · exact ⟨[], by simp [chatLoop, hfr], ToolBlocks.nil⟩

theorem chatLoopS_history (a : Adapter) (n : Nat) :
    ∀ s : ChatState, ((chatLoopS a n s).1).history = s.history := by
  induction n with
  | zero => intro s; rfl
  | succ n ih =>
    intro s
    by_cases hfr : (a s.messages).finish_reason = "tool_calls"
    · cases hh : handle_tool_call (a s.messages).message.tool_calls with
      | error e => simp [chatLoopS, hfr, hh]
      | ok results =>
        simp only [chatLoopS, hfr, if_pos, hh]
        exact ih _
    · simp [chatLoopS, hfr]

/-! ## Helper lemmas about the search executor -/

theorem perform_searches_foldl (searchRun : String → Except Exc String) :
    ∀ (l : List WebSearchItem) (acc : List String),
      l.foldl
        (fun results item =>
          match search searchRun item with
          | some result => results ++ [result]
          | none => results) acc = acc ++ l.filterMap (search searchRun) := by
  intro l
  induction l with
  | nil => intro acc; simp
  | cons x xs ih =>
    intro acc
    cases hfx : search searchRun x with
    | none => simp [List.foldl_cons, hfx, List.filterMap_cons, ih]
    | some r => simp [List.foldl_cons, hfx, List.filterMap_cons, ih]

theorem perform_searches_eq (searchRun : String → Except Exc String)
    (search_plan : WebSearchPlan)
    (as_completed : List WebSearchItem → List WebSearchItem) :
    perform_searches searchRun search_plan as_completed =
      (as_completed search_plan.searches).filterMap (search searchRun) := by
  simp only [perform_searches]
  simpa using perform_searches_foldl searchRun (as_completed search_plan.searches) []

theorem length_filterMap_eq_countP {α β : Type} (f : α → Option β) :
    ∀ l : List α, (l.filterMap f).length = l.countP (fun x => (f x).isSome) := by
  intro l
  induction l with
  | nil => rfl
  | cons x xs ih =>
    cases hfx : f x with
    | none => simp [List.filterMap_cons, hfx, List.countP_cons, ih]
    | some r => simp [List.filterMap_cons, hfx, List.countP_cons, ih]

theorem countP_isSome_add_isNone {α β : Type} (f : α → Option β) :
    ∀ l : List α,
      l.countP (fun x => (f x).isSome) + l.countP (fun x => (f x).isNone) =
        l.length := by
  intro l
  induction l with
  | nil => rfl
  | cons x xs ih =>
    cases hfx : f x with
    | none => simp [List.countP_cons, hfx]; omega
    | some r => simp [List.countP_cons, hfx]; omega

theorem filterMap_eq_nil_of {α β : Type} (f : α → Option β) :
    ∀ l : List α, (∀ x ∈ l, f x = none) → l.filterMap f = [] := by
  intro l
  induction l with
  | nil => intro _; rfl
  | cons x xs ih =>
    intro hall
    rw [List.filterMap_cons, hall x (List.mem_cons_self x xs)]
    exact ih (fun y hy => hall y (List.mem_cons_of_mem x hy))

/-! ## Claim theorems -/

/-- Claim C1: for every user turn, `Me.chat` issues at most 12 model calls;
an adapter that keeps answering with successfully dispatched tool rounds is
not called a 13th time — the turn ends after exactly 12 calls with the fixed
apology string, not with an exception. -/
theorem chat_issues_at_most_twelve_model_calls (me : Me) (message : String)
    (history : List Msg) :
    (∀ a : Adapter, (chat me a message history).calls ≤ MAX_TOOL_ROUNDS) ∧
    (∀ a : Adapter,
      (∀ msgs : List Msg, (a msgs).finish_reason = "tool_calls" ∧
        ∃ rs, handle_tool_call (a msgs).message.tool_calls = Except.ok rs) →
      (chat me a message history).outcome = Except.ok apology ∧
      (chat me a message history).calls = MAX_TOOL_ROUNDS) := by
  constructor
  · intro a
    exact chatLoop_calls_le a MAX_TOOL_ROUNDS _
  · intro a hall
    exact chatLoop_capped a hall MAX_TOOL_ROUNDS _

theorem chat_issues_at_most_twelve_model_calls_witness :
    (chat me0 unknownToolAdapter "hi" []).calls ≤ MAX_TOOL_ROUNDS ∧
    (chat me0 unknownToolAdapter "hi" []).outcome = Except.ok apology ∧
    (chat me0 unknownToolAdapter "hi" []).calls = MAX_TOOL_ROUNDS := by
  refine ⟨(chat_issues_at_most_twelve_model_calls me0 "hi" []).1 unknownToolAdapter,
    (chat_issues_at_most_twelve_model_calls me0 "hi" []).2 unknownToolAdapter ?_⟩
  intro msgs
  exact ⟨rfl,
    ⟨[{ role := "tool", content := dumps (PyVal.dict []), tool_calls := [],
        tool_call_id := some "call_0" }], rfl⟩⟩

/-- Claim C2: everything the loop appends to the conversation is a sequence
of blocks in which the tool-result messages answer exactly the invocations of
the immediately preceding assistant message, carry their ids in request
order, and answer each invocation exactly once. -/
theorem chat_tool_results_match_requested_invocations (me : Me) (a : Adapter)
    (message : String) (history : List Msg) :
    ∃ ext, (chat me a message history).messages =
        initial_messages me message history ++ ext ∧ ToolBlocks ext :=
  chatLoop_blocks a MAX_TOOL_ROUNDS _

/-- Claim C9: an adapter whose first response is a final textual answer makes
the loop return exactly that text after exactly one model call, appending
nothing to the conversation. -/
theorem chat_final_answer_single_call (me : Me) (a : Adapter) (message : String)
    (history : List Msg) (t : String)
    (hfr : (a (initial_messages me message history)).finish_reason ≠ "tool_calls")
    (hct : (a (initial_messages me message history)).message.content = some t) :
    chat me a message history =
      { outcome := Except.ok t, calls := 1,
        messages := initial_messages me message history } := by
  have h12 : MAX_TOOL_ROUNDS = Nat.succ 11 := rfl
  unfold chat
  rw [h12, chatLoop_succ_of_final a 11 _ hfr, hct]
  rfl

theorem chat_final_answer_single_call_witness :
    (finalAnswerAdapter (initial_messages me0 "hello" [])).finish_reason ≠ "tool_calls" ∧
    chat me0 finalAnswerAdapter "hello" [] =
      { outcome := Except.ok "X", calls := 1,
        messages := initial_messages me0 "hello" [] } :=
  ⟨by decide,
   chat_final_answer_single_call me0 finalAnswerAdapter "hello" [] "X" (by decide) rfl⟩

/-- Claim C10: the loop never assigns the caller-supplied `history` list; all
appends target the freshly built `messages` list, so `history` is unchanged
over the whole turn however many tool rounds run. -/
theorem chat_preserves_caller_history (me : Me) (a : Adapter) (message : String)
    (s : ChatState) : ((chatS me a message s).1).history = s.history := by
  unfold chatS
  exact chatLoopS_history a MAX_TOOL_ROUNDS _

/-- Claim C7 counterexample: when the model supplies arguments violating the
declared schema of a registered tool (here `record_user_details` without
`email`), the loop does not feed an error payload back to the model — the
`TypeError` propagates and the turn aborts after one model call. -/
theorem chat_bad_arguments_abort_counterexample :
    (chat me0 badArgsAdapter "hi" []).outcome =
      Except.error (PyErr.typeError "record_user_details") ∧
    (chat me0 badArgsAdapter "hi" []).calls = 1 :=
  ⟨by decide, by decide⟩

/-- Claim C7 as amended: a request for a tool name that is not bound to a
callable in the module namespace is fed back to the model as a tool-result
carrying the empty object (not an error payload) and the conversation
continues; arguments that violate a registered tool's declared signature
raise an uncaught `TypeError` that aborts the turn after that model call. -/
theorem chat_tool_failure_paths_amended (cid nm : String)
    (args : List (String × String)) :
    (lookupTool nm = none →
      handle_tool_call [{ id := cid, function := { name := nm, arguments := args } }] =
        Except.ok [{ role := "tool", content := dumps (PyVal.dict []),
                     tool_calls := [], tool_call_id := some cid }]) ∧
    (∀ (tool : List (String × String) → Except PyErr PyVal) (e : PyErr) (me : Me)
        (a : Adapter) (message : String) (history : List Msg),
      lookupTool nm = some tool → tool args = Except.error e →
      (a (initial_messages me message history)).finish_reason = "tool_calls" →
      (a (initial_messages me message history)).message.tool_calls =
        [{ id := cid, function := { name := nm, arguments := args } }] →
      chat me a message history =
        { outcome := Except.error e, calls := 1,
          messages := initial_messages me message history }) := by
  constructor
  · intro hnone
    simp [handle_tool_call, hnone]
  · intro tool e me a message history hlook herr hfr htc
    have hh : handle_tool_call
        (a (initial_messages me message history)).message.tool_calls =
        Except.error e := by
      rw [htc]
      simp [handle_tool_call, hlook, herr]
    have h12 : MAX_TOOL_ROUNDS = Nat.succ 11 := rfl
    unfold chat
    rw [h12, chatLoop_succ_of_error a 11 _ e hfr hh]

theorem chat_tool_failure_paths_amended_witness :
    (handle_tool_call
        [{ id := "c9", function := { name := "no_such_tool", arguments := [] } }] =
      Except.ok [{ role := "tool", content := dumps (PyVal.dict []),
                   tool_calls := [], tool_call_id := some "c9" }]) ∧
    chat me0 badArgsAdapter "hi" [] =
      { outcome := Except.error (PyErr.typeError "record_user_details"), calls := 1,
        messages := initial_messages me0 "hi" [] } := by
  constructor
  · exact (chat_tool_failure_paths_amended "c9" "no_such_tool" []).1 rfl
  · exact (chat_tool_failure_paths_amended "call_1" "record_user_details"
      [("nickname", "Bo")]).2 record_user_details
      (PyErr.typeError "record_user_details") me0 badArgsAdapter "hi" []
      rfl (by decide) rfl rfl

/-- A two-item search plan used by concrete instances. -/
def plan0 : WebSearchPlan :=
  { searches := [{ reason := "r1", query := "q1" }, { reason := "r2", query := "q2" }] }

/-- A search-agent stub that succeeds exactly on the first item of `plan0`
and fails on everything else. -/
def searchRun0 : String → Except Exc String := fun input =>
  if input = "Search term: q1\nReason for searching: r1" then Except.ok "summary one"
  else Except.error (Exc.failure "boom")

/-- A search-agent stub whose every run fails. -/
def failRun : String → Except Exc String := fun _ => Except.error (Exc.failure "down")

/-- A completion order in which the tasks finish in reverse launch order. -/
def rev_completed : List WebSearchItem → List WebSearchItem := fun tasks => tasks.reverse

/-- Claim C3: when exactly one of the plan's search units fails and the rest
succeed, `perform_searches` returns exactly N-1 summaries, whatever order the
concurrent units complete in. -/
theorem perform_searches_one_failure_length (searchRun : String → Except Exc String)
    (search_plan : WebSearchPlan)
    (as_completed : List WebSearchItem → List WebSearchItem)
    (hperm : (as_completed search_plan.searches).Perm search_plan.searches)
    (hone : search_plan.searches.countP
      (fun it => (search searchRun it).isNone) = 1) :
    (perform_searches searchRun search_plan as_completed).length =
      search_plan.searches.length - 1 := by
  rw [perform_searches_eq, length_filterMap_eq_countP, hperm.countP_eq]
  have hsum := countP_isSome_add_isNone (search searchRun) search_plan.searches
  omega

theorem perform_searches_one_failure_length_witness :
    (rev_completed plan0.searches).Perm plan0.searches ∧
    plan0.searches.countP (fun it => (search searchRun0 it).isNone) = 1 ∧
    (perform_searches searchRun0 plan0 rev_completed).length =
      plan0.searches.length - 1 :=
  ⟨List.reverse_perm _, by decide,
   perform_searches_one_failure_length searchRun0 plan0 rev_completed
     (List.reverse_perm _) (by decide)⟩

/-- Claim C4: when every search unit of the plan fails, `perform_searches`
returns the empty list — each failure is swallowed into `None` inside
`search`, so nothing propagates to the orchestrator and the remaining units
still run to completion. -/
theorem perform_searches_all_fail_empty (searchRun : String → Except Exc String)
    (search_plan : WebSearchPlan)
    (as_completed : List WebSearchItem → List WebSearchItem)
    (hperm : (as_completed search_plan.searches).Perm search_plan.searches)
    (hfail : ∀ it ∈ search_plan.searches, search searchRun it = none) :
    perform_searches searchRun search_plan as_completed = [] := by
  rw [perform_searches_eq]
  exact filterMap_eq_nil_of _ _ (fun it hit => hfail it (hperm.mem_iff.mp hit))

theorem perform_searches_all_fail_empty_witness :
    (rev_completed plan0.searches).Perm plan0.searches ∧
    (∀ it ∈ plan0.searches, search failRun it = none) ∧
    perform_searches failRun plan0 rev_completed = [] :=
  ⟨List.reverse_perm _, by decide,
   perform_searches_all_fail_empty failRun plan0 rev_completed
     (List.reverse_perm _) (by decide)⟩

/-- Claim C5: on a completed run the orchestrator yields, after the initial
trace-link string, the four stage progress events in stage order — plan,
search, write, send — exactly once each, and then the final report markdown,
whatever the completion order of the searches inside the executor stage. -/
theorem run_emits_stage_events_in_order (d : ResearchDeps) (query : String)
    (search_plan : WebSearchPlan) (report : ReportData)
    (hplan : plan_searches d.plannerRun query = Except.ok search_plan)
    (hreport : write_report d.writerRun query
      (perform_searches d.searchRun search_plan d.as_completed) = Except.ok report)
    (hemail : send_email d.emailRun report = Except.ok ()) :
    ResearchManager.run d query =
      Except.ok [trace_event d.gen_trace_id,
                 "Searches planned, starting to search...",
                 "Searches complete, writing report...",
                 "Report written, sending email...",
                 "Email sent, research complete",
                 report.markdown_report] := by
  simp only [ResearchManager.run, hplan, hreport, hemail]

/-- The report produced by the writer stub of `d0`. -/
def report0 : ReportData :=
  { short_summary := "short", markdown_report := "# Final Report",
    follow_up_questions := ["next"] }

/-- Concrete research dependencies on which every stage succeeds. -/
def d0 : ResearchDeps :=
  { gen_trace_id := "trace_abc",
    plannerRun := fun _ => Except.ok plan0,
    searchRun := searchRun0,
    as_completed := rev_completed,
    writerRun := fun _ => Except.ok report0,
    emailRun := fun _ => Except.ok "success" }

theorem run_emits_stage_events_in_order_witness :
    plan_searches d0.plannerRun "topic" = Except.ok plan0 ∧
    ResearchManager.run d0 "topic" =
      Except.ok [trace_event d0.gen_trace_id,
                 "Searches planned, starting to search...",
                 "Searches complete, writing report...",
                 "Report written, sending email...",
                 "Email sent, research complete",
                 report0.markdown_report] :=
  ⟨rfl, run_emits_stage_events_in_order d0 "topic" plan0 report0 rfl rfl rfl⟩

/-- A planner stub returning the two-item plan `plan0`. -/
def twoItemPlanner : String → Except Exc WebSearchPlan := fun _ => Except.ok plan0

/-- Claim C6 counterexample: nothing in the code enforces the configured
count — with a model run producing two items, `plan_searches` returns a
two-item plan, not one of `HOW_MANY_SEARCHES = 5` items. -/
theorem plan_searches_count_counterexample :
    plan_searches twoItemPlanner "any topic" = Except.ok plan0 ∧
    plan0.searches.length ≠ HOW_MANY_SEARCHES :=
  ⟨rfl, by decide⟩

/-- Claim C6 as amended: `plan_searches` returns the model's structured
output unchanged; the configured count (`HOW_MANY_SEARCHES = 5`) is only
requested through the planner instructions, not enforced, so the returned
plan has however many items the model produced. -/
theorem plan_searches_passthrough_amended
    (plannerRun : String → Except Exc WebSearchPlan) (query : String) :
    plan_searches plannerRun query = plannerRun ("Query: " ++ query) ∧
    HOW_MANY_SEARCHES = 5 :=
  ⟨rfl, rfl⟩
